import Mathlib

/-!
Shallow embedding of `src/src/greenlet/greenlet_internal.hpp` (the ownership
wrappers, the scoped Python allocator, the `TypeError` helper and the
`PyMainGreenlet` record), with theorems settling the claims about it.

Host-interpreter primitives (`Py_XINCREF`, `Py_XDECREF`, `PyErr_Occurred`,
`PyErr_SetString`) are external collaborators of the core; they are embedded
with the reference-count / pending-failure semantics the spec assigns them.
-/

namespace GreenletInternal

/-- Run-state tag of a node (spec §3: unstarted, running, suspended, dead). -/
inductive RunState
  | unstarted
  | running
  | suspended
  | dead
deriving DecidableEq, Repr

/-- The per-thread registry. `greenlet::ThreadState` is only forward-declared in
`greenlet_internal.hpp` (line 20); a pointer to it is modelled as a handle
wrapped in its own type so that field types of records can be compared. -/
structure ThreadState where
  handle : Nat
deriving DecidableEq, Repr

/-- Modelled from the spec: the ordinary Greenlet Node record (`PyGreenlet`) is
declared in `include/greenlet.h`, which is not under `src/`. Per spec §3 a node
carries a parent link, the saved raw stack image, a run-state tag and the
OS-thread identity it is pinned to — and no Thread State field. -/
structure PyGreenlet where
  parent : Option Nat
  stack_image : List Nat
  run_state : RunState
  thread_id : Nat
deriving DecidableEq, Repr

/-- `PyMainGreenlet` (greenlet_internal.hpp lines 40-44): a `PyGreenlet`
(`super`) extended with one field, a `greenlet::ThreadState*`. -/
structure PyMainGreenlet where
  super : PyGreenlet
  thread_state : Option ThreadState
deriving DecidableEq, Repr

/-- What kind of thing a host object is: a member of the Greenlet Node family,
or any other host object. -/
inductive PyObjData
  | greenletNode (node : PyGreenlet)
  | nonGreenlet
deriving DecidableEq, Repr

/-- A host object: a stable identity (standing for the object's address, used
as the reference-count key and for pointer equality) plus its kind. A raw
`PyObject*` is an `Option PyObj` (`none` is the null pointer). -/
structure PyObj where
  id : Nat
  data : PyObjData
deriving DecidableEq, Repr

/-- Modelled from the spec: `PyGreenlet_Check` is defined in
`include/greenlet.h`, which is not under `src/`. Per spec §4.1 it validates
that the wrapped handle belongs to the Greenlet Node family; a null handle is
not a node. -/
def PyGreenlet_Check (op : Option PyObj) : Bool :=
  match op with
  | some o =>
      match o.data with
      | PyObjData.greenletNode _ => true
      | PyObjData.nonGreenlet => false
  | none => false

/-- The host interpreter's ambient pending-failure slot: empty, or a pair of
exception type and message. -/
structure PyErrState where
  pendingError : Option (String × String)
deriving DecidableEq, Repr

/-- Host primitive: is a failure pending? -/
def PyErr_Occurred (s : PyErrState) : Bool :=
  s.pendingError.isSome

/-- Host primitive: set the pending failure to the given type and message. -/
def PyErr_SetString (excType what : String) (s : PyErrState) : PyErrState :=
  { pendingError := some (excType, what) }

/-- Effect of the `greenlet::TypeError` constructor (lines 123-128): if no
failure is pending, register `what` as a `PyExc_TypeError`; otherwise leave
the slot untouched. The exception object itself carries `what`. -/
def TypeError.construct (what : String) (s : PyErrState) : PyErrState :=
  if PyErr_Occurred s then s else PyErr_SetString "PyExc_TypeError" what s

/-- The reference-count state of the host heap, keyed by object identity. -/
structure RefWorld where
  refcnt : Nat → Nat

/-- Host primitive `Py_XINCREF`: increment the count of a non-null object,
do nothing on null. -/
def Py_XINCREF (op : Option PyObj) (w : RefWorld) : RefWorld :=
  match op with
  | none => w
  | some o => ⟨fun j => if j = o.id then w.refcnt j + 1 else w.refcnt j⟩

/-- Host primitive `Py_XDECREF`: decrement the count of a non-null object,
do nothing on null. -/
def Py_XDECREF (op : Option PyObj) (w : RefWorld) : RefWorld :=
  match op with
  | none => w
  | some o => ⟨fun j => if j = o.id then w.refcnt j - 1 else w.refcnt j⟩

/-- `BorrowedReference<T>` (lines 147-192): a single non-owning pointer. -/
structure BorrowedReference (α : Type) where
  p : Option α
deriving DecidableEq, Repr

/-- Constructor `BorrowedReference(T* it) : p(it)` (line 155). It only copies
the pointer; the reference-count world is passed through untouched. -/
def BorrowedReference.fromRaw (it : Option α) (w : RefWorld) :
    BorrowedReference α × RefWorld :=
  (⟨it⟩, w)

/-- The compiler-generated copy: copies the pointer member, nothing else. -/
def BorrowedReference.copy (self : BorrowedReference α) (w : RefWorld) :
    BorrowedReference α × RefWorld :=
  (⟨self.p⟩, w)

/-- `operator T*` (lines 164-167) and `operator->` (lines 169-172): both
return the stored pointer. -/
def BorrowedReference.derefPtr (self : BorrowedReference α) (w : RefWorld) :
    Option α × RefWorld :=
  (self.p, w)

/-- `operator==` (lines 174-177): pointer comparison `other.p == this->p`. -/
def BorrowedReference.eqOp [DecidableEq α] (self other : BorrowedReference α)
    (w : RefWorld) : Bool × RefWorld :=
  (decide (other.p = self.p), w)

/-- `operator bool` (lines 179-182): `p != nullptr`. -/
def BorrowedReference.toBoolOp (self : BorrowedReference α) (w : RefWorld) :
    Bool × RefWorld :=
  (self.p.isSome, w)

/-- The (trivial, compiler-generated) destructor: the class declares none and
releases nothing. -/
def BorrowedReference.destruct (self : BorrowedReference α) (w : RefWorld) :
    RefWorld :=
  w

/-- `BorrowedObject` (line 194). -/
abbrev BorrowedObject := BorrowedReference PyObj

/-- `BorrowedGreenlet` (lines 197-214) stores the same pointer as its
`BorrowedReference` base. -/
abbrev BorrowedGreenlet := BorrowedReference PyObj

/-- Default constructor `BorrowedGreenlet()` (lines 200-201): initializes the
base with `nullptr`; it touches neither the error slot nor any refcount. -/
def BorrowedGreenlet.defaultCtor (s : PyErrState) : BorrowedGreenlet × PyErrState :=
  (⟨none⟩, s)

/-- `BorrowedGreenlet(const BorrowedObject& it)` (lines 206-212): the base is
initialized with `nullptr`; if `PyGreenlet_Check(it)` fails, `TypeError` is
constructed (registering the pending failure when the slot was empty) and
thrown; otherwise the raw pointer is set to `it`. -/
def BorrowedGreenlet.fromBorrowedObject (it : BorrowedObject) (s : PyErrState) :
    Except String BorrowedGreenlet × PyErrState :=
  if PyGreenlet_Check it.p then
    (Except.ok ⟨it.p⟩, s)
  else
    (Except.error "Expected a greenlet", TypeError.construct "Expected a greenlet" s)

/-- `APIResult` (lines 216-244): owns at most one counted reference. -/
structure APIResult where
  p : Option PyObj
deriving DecidableEq, Repr

/-- Constructor `APIResult(PyObject* it) : p(it)` (lines 224-226): takes over
the one reference the caller already owns; no increment. -/
def APIResult.fromNew (it : Option PyObj) (w : RefWorld) : APIResult × RefWorld :=
  (⟨it⟩, w)

/-- Copy constructor (lines 230-233): copies the pointer and `Py_XINCREF`s it. -/
def APIResult.copy (other : APIResult) (w : RefWorld) : APIResult × RefWorld :=
  (⟨other.p⟩, Py_XINCREF other.p w)

/-- Destructor (lines 235-238): `Py_XDECREF(p)`. -/
def APIResult.destruct (self : APIResult) (w : RefWorld) : RefWorld :=
  Py_XDECREF self.p w

/-- `operator bool` (lines 240-243): `p != nullptr`. -/
def APIResult.toBoolOp (self : APIResult) : Bool :=
  self.p.isSome

/-- Copying an `APIResult` and immediately destroying the copy. -/
def APIResult.copyThenDestroy (self : APIResult) (w : RefWorld) : RefWorld :=
  let cw := APIResult.copy self w
  APIResult.destruct cw.1 cw.2

/-- `OutParam` (lines 246-289): a slot an external call may fill with one new
owned reference. -/
structure OutParam where
  p : Option PyObj
deriving DecidableEq, Repr

/-- Constructor `OutParam() : p(nullptr)` (lines 255-257). -/
def OutParam.mkEmpty : OutParam :=
  ⟨none⟩

/-- Effect of an external call storing one new owned reference through the
exposed address of the slot (`operator&`, lines 259-262, and
`operator PyObject**`, lines 265-268). -/
def OutParam.populate (self : OutParam) (newref : PyObj) : OutParam :=
  ⟨some newref⟩

/-- `disown` (lines 273-278): return the stored pointer and clear the slot. -/
def OutParam.disown (self : OutParam) : Option PyObj × OutParam :=
  (self.p, ⟨none⟩)

/-- `operator bool` (lines 280-283): `p != nullptr`. -/
def OutParam.toBoolOp (self : OutParam) : Bool :=
  self.p.isSome

/-- Destructor (lines 285-288): `Py_XDECREF(p)`. -/
def OutParam.destruct (self : OutParam) (w : RefWorld) : RefWorld :=
  Py_XDECREF self.p w

/-- Which underlying host allocator a call is routed to. -/
inductive HostAllocator
  | perObject
  | general
deriving DecidableEq, Repr

/-- The host allocator call a `PythonAllocator` operation performs. -/
inductive AllocEvent
  | objMalloc (size : Nat)
  | memMalloc (size : Nat)
  | objFree
  | memFree
deriving DecidableEq, Repr

/-- The allocator family an event belongs to: `PyObject_Malloc`/`PyObject_Free`
are the per-object allocator, `PyMem_Malloc`/`PyMem_Free` the general one. -/
def AllocEvent.family : AllocEvent → HostAllocator
  | AllocEvent.objMalloc _ => HostAllocator.perObject
  | AllocEvent.objFree => HostAllocator.perObject
  | AllocEvent.memMalloc _ => HostAllocator.general
  | AllocEvent.memFree => HostAllocator.general

/-- `PythonAllocator::allocate` (lines 89-98): one object goes to
`PyObject_Malloc(sizeof(T))`, any other count to
`PyMem_Malloc(sizeof(T) * number_objects)`. The unused `hint` is dropped. -/
def PythonAllocator.allocate (sizeofT number_objects : Nat) : AllocEvent :=
  if number_objects = 1 then AllocEvent.objMalloc sizeofT
  else AllocEvent.memMalloc (sizeofT * number_objects)

/-- `PythonAllocator::deallocate` (lines 100-108): count one goes to
`PyObject_Free`, any other count to `PyMem_Free`. The pointer is passed through
to the host free call and does not affect the routing. -/
def PythonAllocator.deallocate (n : Nat) : AllocEvent :=
  if n = 1 then AllocEvent.objFree else AllocEvent.memFree

/-- One call `dispose` makes on the allocator interface. -/
inductive AllocatorCall (α : Type)
  | destroyCall (t : α)
  | deallocateCall (t : α) (n : Nat)
deriving DecidableEq, Repr

/-- `PythonAllocator::dispose` (lines 111-115): `this->destroy(other)` then
`this->deallocate(other, 1)`, as the emitted call sequence. -/
def PythonAllocator.dispose (t : α) : List (AllocatorCall α) :=
  [AllocatorCall.destroyCall t, AllocatorCall.deallocateCall t 1]

theorem RefWorld.refcnt_ext (w1 w2 : RefWorld)
    (h : ∀ j, w1.refcnt j = w2.refcnt j) : w1 = w2 := by
  cases w1
  cases w2
  simp only [RefWorld.mk.injEq]
  funext j
  exact h j

/-- C1: constructing a `BorrowedGreenlet` from a handle that is not a Greenlet
Node yields the type error "Expected a greenlet"; when the ambient
pending-failure slot was empty it is populated with that same type error, so
both channels report the same failure. -/
theorem C1_borrowed_greenlet_type_error (it : BorrowedObject) (s : PyErrState)
    (h : PyGreenlet_Check it.p = false) :
    (BorrowedGreenlet.fromBorrowedObject it s).1 = Except.error "Expected a greenlet" ∧
    (s.pendingError = none →
      ((BorrowedGreenlet.fromBorrowedObject it s).2).pendingError
        = some ("PyExc_TypeError", "Expected a greenlet")) := by
  unfold BorrowedGreenlet.fromBorrowedObject
  rw [h]
  refine ⟨rfl, fun hp => ?_⟩
  simp [TypeError.construct, PyErr_Occurred, PyErr_SetString, hp]

/-- Witness for C1: a concrete non-node object with an empty error slot. -/
theorem C1_borrowed_greenlet_type_error_witness :
    (BorrowedGreenlet.fromBorrowedObject ⟨some ⟨7, PyObjData.nonGreenlet⟩⟩ ⟨none⟩).1
      = Except.error "Expected a greenlet" ∧
    ((BorrowedGreenlet.fromBorrowedObject ⟨some ⟨7, PyObjData.nonGreenlet⟩⟩ ⟨none⟩).2).pendingError
      = some ("PyExc_TypeError", "Expected a greenlet") := by
  have h := C1_borrowed_greenlet_type_error ⟨some ⟨7, PyObjData.nonGreenlet⟩⟩ ⟨none⟩ (by decide)
  exact ⟨h.1, h.2 rfl⟩

/-- C5: constructing a `BorrowedGreenlet` from a Greenlet Node handle succeeds
(no error result, the pending-failure slot is untouched) and dereferencing the
wrapper yields exactly the handle it was constructed from. -/
theorem C5_borrowed_greenlet_roundtrip (it : BorrowedObject) (s : PyErrState)
    (h : PyGreenlet_Check it.p = true) :
    (BorrowedGreenlet.fromBorrowedObject it s).2 = s ∧
    ∃ g : BorrowedGreenlet,
      (BorrowedGreenlet.fromBorrowedObject it s).1 = Except.ok g ∧
      ∀ w, BorrowedReference.derefPtr g w = (it.p, w) := by
  unfold BorrowedGreenlet.fromBorrowedObject
  rw [h]
  exact ⟨rfl, ⟨it.p⟩, rfl, fun w => rfl⟩

/-- Witness for C5: a concrete unstarted node, wrapped and dereferenced. -/
theorem C5_borrowed_greenlet_roundtrip_witness :
    (BorrowedGreenlet.fromBorrowedObject
        ⟨some ⟨5, PyObjData.greenletNode ⟨none, [], RunState.unstarted, 0⟩⟩⟩ ⟨none⟩).2
      = ⟨none⟩ ∧
    ∃ g : BorrowedGreenlet,
      (BorrowedGreenlet.fromBorrowedObject
          ⟨some ⟨5, PyObjData.greenletNode ⟨none, [], RunState.unstarted, 0⟩⟩⟩ ⟨none⟩).1
        = Except.ok g ∧
      ∀ w, BorrowedReference.derefPtr g w
        = (some ⟨5, PyObjData.greenletNode ⟨none, [], RunState.unstarted, 0⟩⟩, w) :=
  C5_borrowed_greenlet_roundtrip
    ⟨some ⟨5, PyObjData.greenletNode ⟨none, [], RunState.unstarted, 0⟩⟩⟩ ⟨none⟩ (by decide)

/-- C9: a default-constructed `BorrowedGreenlet` wraps no object, its validity
test is false, and its construction leaves the pending-failure slot exactly as
it was. -/
theorem C9_default_borrowed_greenlet (s : PyErrState) (w : RefWorld) :
    (BorrowedGreenlet.defaultCtor s).1.p = none ∧
    (BorrowedReference.toBoolOp (BorrowedGreenlet.defaultCtor s).1 w).1 = false ∧
    (BorrowedGreenlet.defaultCtor s).2 = s :=
  ⟨rfl, rfl, rfl⟩

/-- C10: when a failure is already pending, constructing a `TypeError` leaves
the ambient pending-failure slot (and hence the whole error state) exactly as
it was. -/
theorem C10_pending_failure_preserved (what : String) (s : PyErrState)
    (h : ∃ e, s.pendingError = some e) :
    TypeError.construct what s = s := by
  obtain ⟨e, he⟩ := h
  simp [TypeError.construct, PyErr_Occurred, he]

/-- Witness for C10: a concrete already-pending failure survives unchanged. -/
theorem C10_pending_failure_preserved_witness :
    TypeError.construct "Expected a greenlet" ⟨some ("PyExc_ValueError", "boom")⟩
      = ⟨some ("PyExc_ValueError", "boom")⟩ :=
  C10_pending_failure_preserved "Expected a greenlet"
    ⟨some ("PyExc_ValueError", "boom")⟩ ⟨("PyExc_ValueError", "boom"), rfl⟩

theorem APIResult.copyThenDestroy_id (a : APIResult) (w : RefWorld) :
    APIResult.copyThenDestroy a w = w := by
  cases a with
  | mk p =>
    cases p with
    | none => rfl
    | some o =>
      apply RefWorld.refcnt_ext
      intro j
      simp only [APIResult.copyThenDestroy, APIResult.copy, APIResult.destruct,
        Py_XINCREF, Py_XDECREF]
      by_cases hj : j = o.id <;> simp [hj]

theorem APIResult.copyThenDestroy_iterate (a : APIResult) (w : RefWorld) (n : Nat) :
    (APIResult.copyThenDestroy a)^[n] w = w := by
  induction n with
  | zero => rfl
  | succ k ih =>
      rw [Function.iterate_succ_apply, APIResult.copyThenDestroy_id a w]
      exact ih

/-- C2: an `APIResult` is constructed by taking over one reference without an
increment; copying increments the wrapped object's count by exactly one (and
touches no other object); destruction decrements it by one when a reference is
held and does nothing when empty; and for any number of copies each followed by
destruction, destroying the original releases the owned reference exactly
once. -/
theorem C2_apiresult_ownership :
    (∀ (it : Option PyObj) (w : RefWorld), APIResult.fromNew it w = (⟨it⟩, w)) ∧
    (∀ (a : APIResult) (o : PyObj) (w : RefWorld), a.p = some o →
        ((APIResult.copy a w).2).refcnt o.id = w.refcnt o.id + 1 ∧
        (APIResult.copy a w).1 = a ∧
        ∀ j, j ≠ o.id → ((APIResult.copy a w).2).refcnt j = w.refcnt j) ∧
    (∀ (a : APIResult) (o : PyObj) (w : RefWorld), a.p = some o →
        (APIResult.destruct a w).refcnt o.id = w.refcnt o.id - 1) ∧
    (∀ (a : APIResult) (w : RefWorld), a.p = none → APIResult.destruct a w = w) ∧
    (∀ (a : APIResult) (w : RefWorld), APIResult.copyThenDestroy a w = w) ∧
    (∀ (a : APIResult) (o : PyObj) (w : RefWorld) (n : Nat), a.p = some o →
        (APIResult.destruct a ((APIResult.copyThenDestroy a)^[n] w)).refcnt o.id
          = w.refcnt o.id - 1) := by
  refine ⟨fun it w => rfl, ?_, ?_, ?_, APIResult.copyThenDestroy_id, ?_⟩
  · intro a o w ha
    refine ⟨?_, rfl, ?_⟩
    · simp [APIResult.copy, Py_XINCREF, ha]
    · intro j hj
      simp [APIResult.copy, Py_XINCREF, ha, hj]
  · intro a o w ha
    simp [APIResult.destruct, Py_XDECREF, ha]
  · intro a w ha
    simp [APIResult.destruct, Py_XDECREF, ha]
  · intro a o w n ha
    rw [APIResult.copyThenDestroy_iterate a w n]
    simp [APIResult.destruct, Py_XDECREF, ha]

/-- Witness for C2: a concrete object with count 5, copied and destroyed
twice, then the original destroyed: the count drops to 4, exactly one
release. -/
theorem C2_apiresult_ownership_witness :
    (APIResult.destruct ⟨some ⟨3, PyObjData.nonGreenlet⟩⟩
        ((APIResult.copyThenDestroy ⟨some ⟨3, PyObjData.nonGreenlet⟩⟩)^[2]
          ⟨fun _ => 5⟩)).refcnt 3 = 4 := by
  have h := C2_apiresult_ownership.2.2.2.2.2
    ⟨some ⟨3, PyObjData.nonGreenlet⟩⟩ ⟨3, PyObjData.nonGreenlet⟩ ⟨fun _ => 5⟩ 2 rfl
  simpa using h

/-- C3: an `OutParam` starts empty; after an external call populates it,
`disown` yields that reference and clears the slot so a second `disown` yields
nothing; destroying a disowned wrapper (or an empty one) releases nothing,
while destroying a still-populated wrapper decrements the populated object's
count by exactly one and no other count. -/
theorem C3_outparam_lifecycle :
    (OutParam.mkEmpty.p = none ∧ OutParam.toBoolOp OutParam.mkEmpty = false) ∧
    (∀ x : PyObj,
        (OutParam.disown (OutParam.populate OutParam.mkEmpty x)).1 = some x ∧
        (OutParam.disown ((OutParam.disown (OutParam.populate OutParam.mkEmpty x)).2)).1
          = none) ∧
    (∀ (x : PyObj) (w : RefWorld),
        OutParam.destruct ((OutParam.disown (OutParam.populate OutParam.mkEmpty x)).2) w
          = w) ∧
    (∀ w : RefWorld, OutParam.destruct OutParam.mkEmpty w = w) ∧
    (∀ (x : PyObj) (w : RefWorld),
        (OutParam.destruct (OutParam.populate OutParam.mkEmpty x) w).refcnt x.id
          = w.refcnt x.id - 1 ∧
        ∀ j, j ≠ x.id →
          (OutParam.destruct (OutParam.populate OutParam.mkEmpty x) w).refcnt j
            = w.refcnt j) := by
  refine ⟨⟨rfl, rfl⟩, fun x => ⟨rfl, rfl⟩, fun x w => rfl, fun w => rfl, fun x w => ⟨?_, ?_⟩⟩
  · simp [OutParam.destruct, OutParam.populate, Py_XDECREF]
  · intro j hj
    simp [OutParam.destruct, OutParam.populate, Py_XDECREF, hj]

/-- Witness for C3: a concrete populated wrapper destroyed without a take:
the populated object's count 7 drops to 6 and an unrelated object's count is
untouched. -/
theorem C3_outparam_lifecycle_witness :
    (OutParam.destruct (OutParam.populate OutParam.mkEmpty ⟨2, PyObjData.nonGreenlet⟩)
        ⟨fun _ => 7⟩).refcnt 2 = 6 ∧
    (OutParam.destruct (OutParam.populate OutParam.mkEmpty ⟨2, PyObjData.nonGreenlet⟩)
        ⟨fun _ => 7⟩).refcnt 9 = 7 := by
  have h := C3_outparam_lifecycle.2.2.2.2 ⟨2, PyObjData.nonGreenlet⟩ ⟨fun _ => 7⟩
  exact ⟨by simpa using h.1, by simpa using h.2 9 (by decide)⟩

/-- C4: single-object requests are served by the per-object allocator
(`PyObject_Malloc`), any other count by the general allocator (`PyMem_Malloc`);
deallocation with the same count uses the matching counterpart, so equal counts
always pair the same underlying allocator. -/
theorem C4_allocator_routing :
    (∀ szT : Nat,
        PythonAllocator.allocate szT 1 = AllocEvent.objMalloc szT ∧
        PythonAllocator.deallocate 1 = AllocEvent.objFree) ∧
    (∀ (szT n : Nat), n ≠ 1 →
        PythonAllocator.allocate szT n = AllocEvent.memMalloc (szT * n) ∧
        PythonAllocator.deallocate n = AllocEvent.memFree) ∧
    (∀ szT n : Nat,
        (PythonAllocator.allocate szT n).family = (PythonAllocator.deallocate n).family) := by
  refine ⟨fun szT => ⟨rfl, rfl⟩, fun szT n hn => ?_, fun szT n => ?_⟩
  · constructor
    · simp [PythonAllocator.allocate, hn]
    · simp [PythonAllocator.deallocate, hn]
  · by_cases hn : n = 1 <;>
      simp [PythonAllocator.allocate, PythonAllocator.deallocate, hn, AllocEvent.family]

/-- Witness for C4: a concrete bulk request of three 16-byte records. -/
theorem C4_allocator_routing_witness :
    PythonAllocator.allocate 16 3 = AllocEvent.memMalloc (16 * 3) ∧
    PythonAllocator.deallocate 3 = AllocEvent.memFree :=
  C4_allocator_routing.2.1 16 3 (by decide)

/-- C6: every operation of the `BorrowedReference` interface — construction
from a raw handle, copying, dereference, equality comparison, the validity
test and destruction — leaves the reference-count world unchanged; this list
is the whole interface, so no operation releases the wrapped reference. -/
theorem C6_borrowed_reference_frame :
    (∀ (α : Type) (it : Option α) (w : RefWorld),
        (BorrowedReference.fromRaw it w).2 = w) ∧
    (∀ (α : Type) (b : BorrowedReference α) (w : RefWorld),
        (BorrowedReference.copy b w).2 = w) ∧
    (∀ (α : Type) (b : BorrowedReference α) (w : RefWorld),
        (BorrowedReference.derefPtr b w).2 = w) ∧
    (∀ (α : Type) (inst : DecidableEq α) (b o : BorrowedReference α) (w : RefWorld),
        (@BorrowedReference.eqOp α inst b o w).2 = w) ∧
    (∀ (α : Type) (b : BorrowedReference α) (w : RefWorld),
        (BorrowedReference.toBoolOp b w).2 = w) ∧
    (∀ (α : Type) (b : BorrowedReference α) (w : RefWorld),
        BorrowedReference.destruct b w = w) := by
  refine ⟨?_, ?_, ?_, ?_, ?_, ?_⟩ <;> intros <;> rfl

/-- C7: `dispose` is exactly the call sequence destroy-then-deallocate with
count one — destruction first, then the single-object release path (which C4
routes to the per-object allocator). -/
theorem C7_dispose_sequence (α : Type) (t : α) :
    PythonAllocator.dispose t
      = [AllocatorCall.destroyCall t, AllocatorCall.deallocateCall t 1] ∧
    (PythonAllocator.dispose t).head? = some (AllocatorCall.destroyCall t) ∧
    PythonAllocator.deallocate 1 = AllocEvent.objFree :=
  ⟨rfl, rfl, rfl⟩

/-- C8: `PyMainGreenlet` is, up to a field-level bijection, exactly an
ordinary `PyGreenlet` paired with one Thread State reference; and an ordinary
`PyGreenlet` is exactly its four fields (parent, stack image, run state,
thread id), none of which is a Thread State reference. -/
theorem C8_main_greenlet_layout :
    (∃ e : PyMainGreenlet ≃ PyGreenlet × Option ThreadState,
        ∀ m, e m = (m.super, m.thread_state)) ∧
    (∃ f : PyGreenlet ≃ Option Nat × List Nat × RunState × Nat,
        ∀ g, f g = (g.parent, g.stack_image, g.run_state, g.thread_id)) := by
  constructor
  · exact ⟨⟨fun m => (m.super, m.thread_state), fun x => ⟨x.1, x.2⟩,
      fun m => rfl, fun x => rfl⟩, fun m => rfl⟩
  · exact ⟨⟨fun g => (g.parent, g.stack_image, g.run_state, g.thread_id),
      fun x => ⟨x.1, x.2.1, x.2.2.1, x.2.2.2⟩,
      fun g => rfl, fun x => rfl⟩, fun g => rfl⟩

end GreenletInternal
